import Mathlib

/-!
Shallow embedding of `scripts/roamie_biometric_auth.py`: a biometric-approval
gate that reads a bearer token from a file, creates an approval request on a
remote server, polls the request status at a fixed cadence under a 30-second
overall deadline, and maps the outcome to a process exit status (0 = approved,
1 = anything else).

External effects (file system, HTTP responses, wall clock) are modelled as an
explicit `World`; the unbounded `while True` poll loop is modelled with fuel,
returning `none` when the fuel runs out.
-/

namespace Roamie

/-- JSON values relevant to this protocol: the bodies the script inspects carry
either a string or `null` at the keys it reads (`request_id`, `status`). -/
inductive JVal where
  | jnull : JVal
  | jstr : String → JVal
deriving DecidableEq, Repr

/-- Lookup of a key in a parsed JSON object body, as Python `dict.get(key)`:
`none` when the key is absent. -/
def jget (body : List (String × JVal)) (key : String) : Option JVal :=
  match body with
  | [] => none
  | (k, v) :: rest => if k = key then some v else jget rest key

/-- Outcome of one HTTP call: either a response, or a raised
`requests.exceptions.RequestException` (connection failure / per-call timeout). -/
inductive NetResult (α : Type) where
  | ok : α → NetResult α
  | netError : NetResult α
deriving DecidableEq

/-- An HTTP response as the script observes it: a status code and the result of
`.json()` on the body (`none` when parsing raises). -/
structure HttpResponse where
  status_code : Nat
  body : Option (List (String × JVal))
deriving DecidableEq

/-- Python truthiness of an optional string: `None` and `""` are falsy
(the `if not token` / `if not request_id` checks in `main`). -/
def pyTruthyOptStr : Option String → Bool
  | none => false
  | some s => !(s = "")

/-- `REQUEST_TIMEOUT = 30` seconds: the overall deadline of the poll loop. -/
def REQUEST_TIMEOUT : ℚ := 30

/-- `POLL_INTERVAL = 2` seconds: the sleep between consecutive pending polls. -/
def POLL_INTERVAL : ℚ := 2

/-- The external state of one invocation: the credential file, the creation
response, the sequence of poll responses, and the wall clock.  `elapsed k` is
the value `time.time() - start_time` read at the start of loop iteration `k`;
the sleeps constrain it only through hypotheses on theorems. -/
structure World where
  fileExists : Bool
  statOk : Bool
  fileMode : Nat
  readOk : Bool
  fileContent : String
  createResp : NetResult HttpResponse
  pollResps : Nat → NetResult HttpResponse
  elapsed : Nat → ℚ

/-- Python `str.strip()`: drop whitespace from both ends.  Written over the
character list so that it evaluates by kernel reduction. -/
def pyStrip (s : String) : String :=
  String.mk (((s.data.dropWhile Char.isWhitespace).reverse.dropWhile Char.isWhitespace).reverse)

/-- `read_jwt_token`: `None` when the file is missing, `os.stat` or the read
raises, or the stripped content is empty; otherwise the stripped content. -/
def read_jwt_token (w : World) : Option String :=
  if w.fileExists = false then none
  else if w.statOk = false then none
  else if w.readOk = false then none
  else if pyStrip w.fileContent = "" then none
  else some (pyStrip w.fileContent)

/-- The insecure-permission warning of `read_jwt_token`: printed exactly when
the file exists, `os.stat` succeeded, and `st_mode & 0o077` is nonzero. -/
def jwt_warning (w : World) : Bool :=
  w.fileExists && w.statOk && decide (w.fileMode &&& 0o077 ≠ 0)

/-- Modelled from the spec sentence it checks: the bits of a permission mode
outside owner read (0o400) and owner write (0o200), over the twelve permission
bits.  Used only to compare the spec wording of the warning condition with the
code's `st_mode & 0o077` test. -/
def modeBitsOutsideOwnerRW (mode : Nat) : Nat := mode &&& 0o7177

/-- `create_auth_request`: `request_id` from a 201 response with a parseable
body, via `result.get("request_id")` (so an absent key or a JSON `null` both
give Python `None`); any exception or non-201 status gives `None`. -/
def create_auth_request (resp : NetResult HttpResponse) : Option String :=
  match resp with
  | .netError => none
  | .ok r =>
    if r.status_code = 201 then
      match r.body with
      | none => none
      | some b =>
        match jget b "request_id" with
        | some (.jstr s) => some s
        | _ => none
    else none

/-- `poll_auth_status`: `(True, status)` on a 200 response with parseable body,
where `status = result.get("status", "unknown")`; `(False, "error")` on any
other status, transport error, or unparseable body. -/
def poll_auth_status (resp : NetResult HttpResponse) : Bool × JVal :=
  match resp with
  | .netError => (false, .jstr "error")
  | .ok r =>
    if r.status_code = 200 then
      match r.body with
      | none => (false, .jstr "error")
      | some b =>
        match jget b "status" with
        | some v => (true, v)
        | none => (true, .jstr "unknown")
    else (false, .jstr "error")

/-- The `while True` loop of `wait_for_auth_response`, with fuel.  `k` is the
current iteration index, which also counts the poll calls issued so far.
Result: `some (decision, number of poll calls issued)`, or `none` when the
fuel runs out before the loop returns. -/
def wait_for_auth_response_aux (polls : Nat → Bool × JVal) (elapsed : Nat → ℚ) :
    Nat → Nat → Option (Bool × Nat)
  | 0, _ => none
  | fuel + 1, k =>
    if elapsed k > REQUEST_TIMEOUT then some (false, k)
    else if (polls k).1 = false then some (false, k + 1)
    else if (polls k).2 = JVal.jstr "approved" then some (true, k + 1)
    else if (polls k).2 = JVal.jstr "denied" then some (false, k + 1)
    else if (polls k).2 = JVal.jstr "expired" ∨ (polls k).2 = JVal.jstr "timeout" then
      some (false, k + 1)
    else if (polls k).2 = JVal.jstr "pending" then
      wait_for_auth_response_aux polls elapsed fuel (k + 1)
    else some (false, k + 1)

/-- `wait_for_auth_response`: run the poll loop from iteration 0. -/
def wait_for_auth_response (polls : Nat → Bool × JVal) (elapsed : Nat → ℚ)
    (fuel : Nat) : Option (Bool × Nat) :=
  wait_for_auth_response_aux polls elapsed fuel 0

/-- The poll outcome sequence of a world: `poll_auth_status` applied to each
successive poll response. -/
def pollsOf (w : World) : Nat → Bool × JVal :=
  fun k => poll_auth_status (w.pollResps k)

/-- Counters of one run of `main`: its return value and how many create and
poll calls were issued. -/
structure RunStats where
  exitCode : Nat
  createCalls : Nat
  pollCalls : Nat
deriving DecidableEq, Repr

/-- `main`: read the token, create the request, wait for the response; returns
1 on a falsy token or request id without any further network call, else maps
the wait decision to 0/1.  `none` when the poll loop ran out of fuel. -/
def main (fuel : Nat) (w : World) : Option RunStats :=
  let token := read_jwt_token w
  if pyTruthyOptStr token = false then some ⟨1, 0, 0⟩
  else
    let request_id := create_auth_request w.createResp
    if pyTruthyOptStr request_id = false then some ⟨1, 1, 0⟩
    else
      match wait_for_auth_response (pollsOf w) w.elapsed fuel with
      | none => none
      | some (approved, calls) => some ⟨if approved then 0 else 1, 1, calls⟩

/-- How the `sys.exit(main())` wrapper terminates: normally, by
`KeyboardInterrupt`, or by an unexpected exception. -/
inductive Outer where
  | normal : Outer
  | interrupted : Outer
  | crashed : Outer
deriving DecidableEq

/-- The `__main__` handler: `sys.exit(main())`, with `KeyboardInterrupt` and
any other exception both mapped to exit status 1. -/
def script_run (fuel : Nat) (o : Outer) (w : World) : Option Nat :=
  match o with
  | .normal => (main fuel w).map RunStats.exitCode
  | .interrupted => some 1
  | .crashed => some 1

/-- Python `None` is falsy. -/
lemma pyTruthyOptStr_none : pyTruthyOptStr none = false := rfl

/-- A successful pending poll under the deadline advances the loop by one
iteration, consuming one unit of fuel. -/
lemma aux_step_pending (polls : Nat → Bool × JVal) (elapsed : Nat → ℚ)
    (fuel k : Nat) (hp : polls k = (true, JVal.jstr "pending"))
    (he : elapsed k ≤ REQUEST_TIMEOUT) :
    wait_for_auth_response_aux polls elapsed (fuel + 1) k
      = wait_for_auth_response_aux polls elapsed fuel (k + 1) := by
  simp [wait_for_auth_response_aux, hp, not_lt.mpr he]

/-- Advancing over a block of `m` successful pending polls, each under the
deadline, consumes `m` units of fuel and issues `m` poll calls. -/
lemma aux_advance (polls : Nat → Bool × JVal) (elapsed : Nat → ℚ) :
    ∀ (m fuel k : Nat),
      (∀ j, k ≤ j → j < k + m →
        polls j = (true, JVal.jstr "pending") ∧ elapsed j ≤ REQUEST_TIMEOUT) →
      wait_for_auth_response_aux polls elapsed (m + fuel) k
        = wait_for_auth_response_aux polls elapsed fuel (k + m) := by
  intro m
  induction m with
  | zero => intro fuel k _; simp
  | succ m ih =>
    intro fuel k h
    have hk := h k (le_refl k) (by omega)
    have e1 : m + 1 + fuel = (m + fuel) + 1 := by omega
    rw [e1, aux_step_pending polls elapsed (m + fuel) k hk.1 hk.2,
      ih fuel (k + 1) (fun j hj1 hj2 => h j (by omega) (by omega))]
    congr 1
    omega

/-- The loop answers allow only from the approved branch: if it returns
`(true, n)`, the last poll issued came back successful with status exactly
`"approved"`. -/
lemma aux_allow_approved (polls : Nat → Bool × JVal) (elapsed : Nat → ℚ) :
    ∀ (fuel k n : Nat),
      wait_for_auth_response_aux polls elapsed fuel k = some (true, n) →
      polls (n - 1) = (true, JVal.jstr "approved") := by
  intro fuel
  induction fuel with
  | zero => intro k n h; simp [wait_for_auth_response_aux] at h
  | succ fuel ih =>
    intro k n h
    rw [wait_for_auth_response_aux] at h
    by_cases h1 : elapsed k > REQUEST_TIMEOUT
    · simp [h1] at h
    · rw [if_neg h1] at h
      by_cases h2 : (polls k).1 = false
      · simp [h2] at h
      · rw [if_neg h2] at h
        by_cases h3 : (polls k).2 = JVal.jstr "approved"
        · rw [if_pos h3] at h
          have h2t : (polls k).1 = true := by
            revert h2; cases (polls k).1 <;> simp
          have hn : n = k + 1 := by
            have := Option.some.inj h
            exact ((Prod.mk.injEq _ _ _ _).mp this).2.symm
          have : polls k = ((polls k).1, (polls k).2) := rfl
          rw [hn]
          simpa [h2t, h3] using this
        · rw [if_neg h3] at h
          by_cases h4 : (polls k).2 = JVal.jstr "denied"
          · simp [h4] at h
          · rw [if_neg h4] at h
            by_cases h5 : (polls k).2 = JVal.jstr "expired" ∨ (polls k).2 = JVal.jstr "timeout"
            · simp [h5] at h
            · rw [if_neg h5] at h
              by_cases h6 : (polls k).2 = JVal.jstr "pending"
              · rw [if_pos h6] at h
                exact ih (k + 1) n h
              · simp [h6] at h

/-- Claim C2: if the poll call at position `m` reports failure (success =
false), after any prefix of successful pending polls under the deadline, the
wait loop returns deny immediately with exactly `m + 1` poll calls issued, so
no further poll call follows the failed one — regardless of how much of the
overall deadline remains. -/
theorem C2_poll_failure_immediate_deny (polls : Nat → Bool × JVal) (elapsed : Nat → ℚ)
    (m fuel : Nat)
    (hpre : ∀ j, j < m → polls j = (true, JVal.jstr "pending") ∧ elapsed j ≤ REQUEST_TIMEOUT)
    (hm : elapsed m ≤ REQUEST_TIMEOUT)
    (hfail : (polls m).1 = false)
    (hfuel : m + 1 ≤ fuel) :
    wait_for_auth_response polls elapsed fuel = some (false, m + 1) := by
  unfold wait_for_auth_response
  have e : fuel = m + (fuel - m) := by omega
  rw [e, aux_advance polls elapsed m (fuel - m) 0 (fun j hj1 hj2 => hpre j (by omega))]
  have hf : fuel - m = (fuel - m - 1) + 1 := by omega
  rw [Nat.zero_add, hf, wait_for_auth_response_aux]
  simp [not_lt.mpr hm, hfail]

/-- Witness for C2 at a concrete input: a transport error on the very first
poll yields deny after exactly one poll call. -/
theorem C2_witness :
    wait_for_auth_response (fun _ => (false, JVal.jstr "error")) (fun _ => 0) 1
      = some (false, 1) :=
  C2_poll_failure_immediate_deny (fun _ => (false, JVal.jstr "error")) (fun _ => 0) 0 1
    (fun j hj => absurd hj (Nat.not_lt_zero j))
    (by rw [REQUEST_TIMEOUT]; norm_num) rfl (le_refl 1)

/-- Claim C3: on a poll sequence of successful pending responses only, with a
clock that advances by the 2-second poll interval per iteration up to 4 seconds
of total scheduling overhead, the wait loop returns deny once elapsed time
exceeds the 30-second deadline, and the number of poll calls issued is
floor(30 / 2) plus or minus one, i.e. between 14 and 16. -/
theorem C3_all_pending_deadline (polls : Nat → Bool × JVal) (elapsed : Nat → ℚ)
    (hp : ∀ k, polls k = (true, JVal.jstr "pending"))
    (hlo : ∀ k : Nat, (2 * k : ℚ) ≤ elapsed k)
    (hhi : ∀ k : Nat, elapsed k ≤ 2 * k + 4) :
    ∃ n, wait_for_auth_response polls elapsed 17 = some (false, n) ∧ 14 ≤ n ∧ n ≤ 16 := by
  have hpre : ∀ j, 0 ≤ j → j < 0 + 14 →
      polls j = (true, JVal.jstr "pending") ∧ elapsed j ≤ REQUEST_TIMEOUT := by
    intro j _ hj
    refine ⟨hp j, ?_⟩
    have h1 := hhi j
    have hj13 : (j : ℚ) ≤ 13 := by exact_mod_cast (by omega : j ≤ 13)
    rw [REQUEST_TIMEOUT]
    linarith
  unfold wait_for_auth_response
  rw [show (17 : Nat) = 14 + 3 from rfl, aux_advance polls elapsed 14 3 0 hpre, Nat.zero_add]
  by_cases h14 : elapsed 14 > REQUEST_TIMEOUT
  · refine ⟨14, ?_, by omega, by omega⟩
    rw [wait_for_auth_response_aux]
    simp [h14]
  · rw [show (3 : Nat) = 2 + 1 from rfl, aux_step_pending polls elapsed 2 14 (hp 14) (not_lt.mp h14)]
    by_cases h15 : elapsed (14 + 1) > REQUEST_TIMEOUT
    · refine ⟨15, ?_, by omega, by omega⟩
      rw [wait_for_auth_response_aux]
      simp [h15]
    · rw [show (2 : Nat) = 1 + 1 from rfl,
        aux_step_pending polls elapsed 1 (14 + 1) (hp (14 + 1)) (not_lt.mp h15)]
      have h16 : elapsed (14 + 1 + 1) > REQUEST_TIMEOUT := by
        have := hlo 16
        rw [REQUEST_TIMEOUT]
        push_cast at this
        have e16 : (14 + 1 + 1 : Nat) = 16 := by omega
        rw [e16]
        linarith
      refine ⟨16, ?_, by omega, by omega⟩
      rw [wait_for_auth_response_aux]
      simp [h16]

/-- Witness for C3 at a concrete input: the ideal clock that reads exactly
2k seconds at iteration k, with every poll pending. -/
theorem C3_witness :
    ∃ n, wait_for_auth_response (fun _ => (true, JVal.jstr "pending")) (fun k => 2 * k) 17
      = some (false, n) ∧ 14 ≤ n ∧ n ≤ 16 :=
  C3_all_pending_deadline (fun _ => (true, JVal.jstr "pending")) (fun k => 2 * k)
    (fun _ => rfl) (fun k => le_refl _) (fun k => le_add_of_nonneg_right (by norm_num))

/-- Claim C7: a poll that succeeds with a status outside the known set
(not approved, denied, expired, timeout, or pending), after any prefix of
successful pending polls under the deadline, is terminal: the wait loop
returns deny right there; and no status other than exactly "approved" ever
yields allow, since an allow answer forces the last poll to be
`(true, "approved")`. -/
theorem C7_unrecognized_status_denies (polls : Nat → Bool × JVal) (elapsed : Nat → ℚ)
    (m fuel : Nat) (v : JVal)
    (hpre : ∀ j, j < m → polls j = (true, JVal.jstr "pending") ∧ elapsed j ≤ REQUEST_TIMEOUT)
    (hm : elapsed m ≤ REQUEST_TIMEOUT)
    (hv : polls m = (true, v))
    (hna : v ≠ JVal.jstr "approved") (hnd : v ≠ JVal.jstr "denied")
    (hne : v ≠ JVal.jstr "expired") (hnt : v ≠ JVal.jstr "timeout")
    (hnp : v ≠ JVal.jstr "pending")
    (hfuel : m + 1 ≤ fuel) :
    wait_for_auth_response polls elapsed fuel = some (false, m + 1) ∧
    (∀ res n, wait_for_auth_response polls elapsed fuel = some (res, n) → res = true →
      polls (n - 1) = (true, JVal.jstr "approved")) := by
  constructor
  · unfold wait_for_auth_response
    have e : fuel = m + (fuel - m) := by omega
    rw [e, aux_advance polls elapsed m (fuel - m) 0 (fun j hj1 hj2 => hpre j (by omega))]
    have hf : fuel - m = (fuel - m - 1) + 1 := by omega
    rw [Nat.zero_add, hf, wait_for_auth_response_aux]
    simp [not_lt.mpr hm, hv, hna, hnd, hne, hnt, hnp]
  · intro res n hres hture
    subst hture
    exact aux_allow_approved polls elapsed fuel 0 n hres

/-- Witness for C7 at a concrete input: a successful poll with status
"weird_value" on the first call yields deny after exactly one poll call. -/
theorem C7_witness :
    wait_for_auth_response (fun _ => (true, JVal.jstr "weird_value")) (fun _ => 0) 1
      = some (false, 1) :=
  (C7_unrecognized_status_denies (fun _ => (true, JVal.jstr "weird_value")) (fun _ => 0)
    0 1 (JVal.jstr "weird_value")
    (fun j hj => absurd hj (Nat.not_lt_zero j))
    (by rw [REQUEST_TIMEOUT]; norm_num) rfl
    (by decide) (by decide) (by decide) (by decide) (by decide) (le_refl 1)).1

/-- Claim C9: on the poll sequence pending, pending, approved, with the
deadline not yet elapsed at each of the three checks, the wait loop returns
allow with exactly 3 poll calls issued. -/
theorem C9_pending_pending_approved (polls : Nat → Bool × JVal) (elapsed : Nat → ℚ)
    (fuel : Nat)
    (h0 : polls 0 = (true, JVal.jstr "pending"))
    (h1 : polls 1 = (true, JVal.jstr "pending"))
    (h2 : polls 2 = (true, JVal.jstr "approved"))
    (he0 : elapsed 0 ≤ REQUEST_TIMEOUT) (he1 : elapsed 1 ≤ REQUEST_TIMEOUT)
    (he2 : elapsed 2 ≤ REQUEST_TIMEOUT)
    (hfuel : 3 ≤ fuel) :
    wait_for_auth_response polls elapsed fuel = some (true, 3) := by
  unfold wait_for_auth_response
  obtain ⟨f, rfl⟩ : ∃ f, fuel = f + 3 := ⟨fuel - 3, by omega⟩
  rw [show f + 3 = (f + 2) + 1 from rfl, aux_step_pending polls elapsed (f + 2) 0 h0 he0,
    Nat.zero_add, show f + 2 = (f + 1) + 1 from rfl,
    aux_step_pending polls elapsed (f + 1) 1 h1 he1,
    wait_for_auth_response_aux]
  simp [not_lt.mpr he2, h2]

/-- Witness for C9 at a concrete input. -/
theorem C9_witness :
    wait_for_auth_response
      (fun k => if k < 2 then (true, JVal.jstr "pending") else (true, JVal.jstr "approved"))
      (fun _ => 0) 3 = some (true, 3) :=
  C9_pending_pending_approved
    (fun k => if k < 2 then (true, JVal.jstr "pending") else (true, JVal.jstr "approved"))
    (fun _ => 0) 3 rfl rfl rfl
    (by rw [REQUEST_TIMEOUT]; norm_num) (by rw [REQUEST_TIMEOUT]; norm_num)
    (by rw [REQUEST_TIMEOUT]; norm_num) (le_refl 3)

/-- Claim C8: a poll response with HTTP status 200 and a parseable body that
lacks a status field yields a successful PollOutcome with the literal status
string "unknown", not a failure. -/
theorem C8_missing_status_defaults_unknown (r : HttpResponse) (b : List (String × JVal))
    (hs : r.status_code = 200) (hb : r.body = some b) (hmiss : jget b "status" = none) :
    poll_auth_status (NetResult.ok r) = (true, JVal.jstr "unknown") := by
  simp [poll_auth_status, hs, hb, hmiss]

/-- Witness for C8 at a concrete input: a 200 response with an empty JSON
object body. -/
theorem C8_witness :
    poll_auth_status (NetResult.ok ⟨200, some []⟩) = (true, JVal.jstr "unknown") :=
  C8_missing_status_defaults_unknown ⟨200, some []⟩ [] rfl rfl rfl

/-- Claim C4: `create_auth_request` returns none on a transport error or
per-call timeout, on any non-201 status, on a 201 response with unparseable
body, and on a 201 response whose body lacks `request_id`; in each such case
`main` exits 1 without issuing any poll call. -/
theorem C4_create_failure_denies (fuel : Nat) (w : World)
    (h : w.createResp = NetResult.netError ∨
         (∃ r, w.createResp = NetResult.ok r ∧ r.status_code ≠ 201) ∨
         (∃ r, w.createResp = NetResult.ok r ∧ r.body = none) ∨
         (∃ r b, w.createResp = NetResult.ok r ∧ r.body = some b ∧
           jget b "request_id" = none)) :
    create_auth_request w.createResp = none ∧
    ∃ st, main fuel w = some st ∧ st.exitCode = 1 ∧ st.pollCalls = 0 := by
  have hc : create_auth_request w.createResp = none := by
    rcases h with h | ⟨r, hr, hs⟩ | ⟨r, hr, hb⟩ | ⟨r, b, hr, hb, hg⟩
    · rw [h]; rfl
    · rw [hr]; simp [create_auth_request, hs]
    · rw [hr]
      rcases eq_or_ne r.status_code 201 with h201 | h201 <;>
        simp [create_auth_request, hb, h201]
    · rw [hr]
      rcases eq_or_ne r.status_code 201 with h201 | h201 <;>
        simp [create_auth_request, hb, hg, h201]
  refine ⟨hc, ?_⟩
  by_cases ht : pyTruthyOptStr (read_jwt_token w) = false
  · exact ⟨⟨1, 0, 0⟩, by simp [main, ht], rfl, rfl⟩
  · exact ⟨⟨1, 1, 0⟩, by simp [main, ht, hc, pyTruthyOptStr_none], rfl, rfl⟩

/-- A world whose creation call fails with a transport error, everything
before it healthy. -/
def wNoCreate : World :=
  ⟨true, true, 0o600, true, "tok", NetResult.netError,
   fun _ => NetResult.netError, fun _ => 0⟩

/-- Witness for C4 at a concrete input: a connection failure on the creation
call. -/
theorem C4_witness :
    create_auth_request wNoCreate.createResp = none ∧
    ∃ st, main 1 wNoCreate = some st ∧ st.exitCode = 1 ∧ st.pollCalls = 0 :=
  C4_create_failure_denies 1 wNoCreate (Or.inl rfl)

/-- Claim C5: `read_jwt_token` returns none when the file does not exist,
cannot be read (stat or read raises), or strips to the empty string; in each
such case `main` exits 1 with no create call and no poll call issued. -/
theorem C5_missing_credential_denies (fuel : Nat) (w : World)
    (h : w.fileExists = false ∨ w.statOk = false ∨ w.readOk = false ∨
         pyStrip w.fileContent = "") :
    read_jwt_token w = none ∧
    ∃ st, main fuel w = some st ∧ st.exitCode = 1 ∧ st.createCalls = 0 ∧
      st.pollCalls = 0 := by
  have hr : read_jwt_token w = none := by
    rcases h with h | h | h | h <;> simp [read_jwt_token, h]
  exact ⟨hr, ⟨1, 0, 0⟩, by simp [main, hr, pyTruthyOptStr], rfl, rfl, rfl⟩

/-- A world whose credential file is missing. -/
def wNoFile : World :=
  ⟨false, true, 0o600, true, "", NetResult.netError,
   fun _ => NetResult.netError, fun _ => 0⟩

/-- Witness for C5 at a concrete input: the credential file does not exist. -/
theorem C5_witness :
    read_jwt_token wNoFile = none ∧
    ∃ st, main 1 wNoFile = some st ∧ st.exitCode = 1 ∧ st.createCalls = 0 ∧
      st.pollCalls = 0 :=
  C5_missing_credential_denies 1 wNoFile (Or.inl rfl)

/-- A world whose credential file has mode 0o700: owner execute set, no group
or other access. -/
def w700 : World :=
  ⟨true, true, 0o700, true, "secret-token", NetResult.netError,
   fun _ => NetResult.netError, fun _ => 0⟩

/-- Counterexample to claim C6 as stated: at mode 0o700 a bit outside owner
read and owner write is set (owner execute, 0o100), yet the code emits no
warning, because its test is `st_mode & 0o077` — group and other bits only. -/
theorem C6_counterexample :
    ¬ (jwt_warning w700 = true ↔ modeBitsOutsideOwnerRW w700.fileMode ≠ 0) := by
  decide

/-- Claim C6 as amended: a non-fatal warning is emitted if and only if the
file exists, stat succeeds, and the permission mode grants some access to
group or others (`mode & 0o077` nonzero); the warning never changes the
returned credential or the decision — the file mode is irrelevant to both. -/
theorem C6_amended_warning_group_other (w : World)
    (hex : w.fileExists = true) (hst : w.statOk = true) :
    (jwt_warning w = true ↔ w.fileMode &&& 0o077 ≠ 0) ∧
    (∀ mode, read_jwt_token { w with fileMode := mode } = read_jwt_token w) ∧
    (∀ fuel mode, main fuel { w with fileMode := mode } = main fuel w) := by
  refine ⟨?_, fun mode => rfl, fun fuel mode => rfl⟩
  simp [jwt_warning, hex, hst]

/-- A world whose credential file has mode 0o660: group read and write set. -/
def w660 : World :=
  ⟨true, true, 0o660, true, "secret-token", NetResult.netError,
   fun _ => NetResult.netError, fun _ => 0⟩

/-- Witness for the amended C6 at a concrete input: mode 0o660 grants group
access, so the warning fires. -/
theorem C6_witness : jwt_warning w660 = true :=
  ((C6_amended_warning_group_other w660 rfl rfl).1).mpr (by decide)

/-- Claim C10: a 201 creation response whose parseable body carries a
`request_id` that is present but falsy — JSON null or the empty string — makes
`main` exit 1 with no poll call issued, exactly as a failed creation. -/
theorem C10_falsy_request_id_denies (fuel : Nat) (w : World) (r : HttpResponse)
    (b : List (String × JVal)) (hr : w.createResp = NetResult.ok r)
    (hs : r.status_code = 201) (hb : r.body = some b)
    (hid : jget b "request_id" = some JVal.jnull ∨
           jget b "request_id" = some (JVal.jstr "")) :
    ∃ st, main fuel w = some st ∧ st.exitCode = 1 ∧ st.pollCalls = 0 := by
  have hc : pyTruthyOptStr (create_auth_request w.createResp) = false := by
    rw [hr]
    rcases hid with h | h <;> simp [create_auth_request, hs, hb, h, pyTruthyOptStr]
  by_cases ht : pyTruthyOptStr (read_jwt_token w) = false
  · exact ⟨⟨1, 0, 0⟩, by simp [main, ht], rfl, rfl⟩
  · exact ⟨⟨1, 1, 0⟩, by simp [main, ht, hc], rfl, rfl⟩

/-- A world whose creation call returns 201 with `request_id` null. -/
def wNullId : World :=
  ⟨true, true, 0o600, true, "tok",
   NetResult.ok ⟨201, some [("request_id", JVal.jnull)]⟩,
   fun _ => NetResult.netError, fun _ => 0⟩

/-- Witness for C10 at a concrete input: a 201 creation response with
`request_id` equal to JSON null. -/
theorem C10_witness :
    ∃ st, main 1 wNullId = some st ∧ st.exitCode = 1 ∧ st.pollCalls = 0 :=
  C10_falsy_request_id_denies 1 wNullId ⟨201, some [("request_id", JVal.jnull)]⟩
    [("request_id", JVal.jnull)] rfl rfl rfl (Or.inl rfl)

/-- Claim C1: the process exit status is 0 exactly when the run ended
normally with a truthy credential, a truthy request id, and an allow decision
from the wait loop; an allow decision forces some poll call to have returned
success with status exactly "approved"; interruption and unexpected
exceptions exit 1; and every defined exit status is 0 or 1. -/
theorem C1_exit_status_policy (fuel : Nat) (o : Outer) (w : World) :
    (script_run fuel o w = some 0 ↔
      (o = Outer.normal ∧ pyTruthyOptStr (read_jwt_token w) = true ∧
       pyTruthyOptStr (create_auth_request w.createResp) = true ∧
       ∃ n, wait_for_auth_response (pollsOf w) w.elapsed fuel = some (true, n))) ∧
    (script_run fuel o w = some 0 →
      ∃ k, poll_auth_status (w.pollResps k) = (true, JVal.jstr "approved")) ∧
    (o ≠ Outer.normal → script_run fuel o w = some 1) ∧
    (∀ e, script_run fuel o w = some e → e = 0 ∨ e = 1) := by
  cases o with
  | interrupted =>
    refine ⟨by simp [script_run], by simp [script_run], fun _ => rfl, ?_⟩
    intro e he
    simp [script_run] at he
    omega
  | crashed =>
    refine ⟨by simp [script_run], by simp [script_run], fun _ => rfl, ?_⟩
    intro e he
    simp [script_run] at he
    omega
  | normal =>
    have h3 : Outer.normal ≠ Outer.normal → script_run fuel Outer.normal w = some 1 :=
      fun hn => absurd rfl hn
    by_cases ht : pyTruthyOptStr (read_jwt_token w) = false
    · have hm : main fuel w = some ⟨1, 0, 0⟩ := by simp [main, ht]
      refine ⟨by simp [script_run, hm, ht], by simp [script_run, hm], h3, ?_⟩
      intro e he
      simp [script_run, hm, RunStats.exitCode] at he
      omega
    · have ht2 : pyTruthyOptStr (read_jwt_token w) = true := by
        revert ht; cases pyTruthyOptStr (read_jwt_token w) <;> simp
      by_cases hcr : pyTruthyOptStr (create_auth_request w.createResp) = false
      · have hm : main fuel w = some ⟨1, 1, 0⟩ := by simp [main, ht, hcr]
        refine ⟨by simp [script_run, hm, hcr], by simp [script_run, hm], h3, ?_⟩
        intro e he
        simp [script_run, hm, RunStats.exitCode] at he
        omega
      · have hcr2 : pyTruthyOptStr (create_auth_request w.createResp) = true := by
          revert hcr; cases pyTruthyOptStr (create_auth_request w.createResp) <;> simp
        rcases hw : wait_for_auth_response (pollsOf w) w.elapsed fuel with - | ⟨a, c⟩
        · have hm : main fuel w = none := by simp [main, ht, hcr, hw]
          refine ⟨?_, by simp [script_run, hm], h3, ?_⟩
          · simp only [script_run, hm, Option.map_none]
            constructor
            · intro he; exact absurd he (by simp)
            · rintro ⟨-, -, -, n, hn⟩
              exact absurd hn (by simp)
          · intro e he
            simp [script_run, hm] at he
        · cases a with
          | true =>
            have hm : main fuel w = some ⟨0, 1, c⟩ := by simp [main, ht, hcr, hw]
            refine ⟨?_, ?_, h3, ?_⟩
            · constructor
              · intro _; exact ⟨rfl, ht2, hcr2, c, rfl⟩
              · intro _; simp [script_run, hm, RunStats.exitCode]
            · intro _
              exact ⟨c - 1, aux_allow_approved (pollsOf w) w.elapsed fuel 0 c hw⟩
            · intro e he
              simp [script_run, hm, RunStats.exitCode] at he
              omega
          | false =>
            have hm : main fuel w = some ⟨1, 1, c⟩ := by simp [main, ht, hcr, hw]
            refine ⟨?_, ?_, h3, ?_⟩
            · constructor
              · intro he
                exfalso
                simp [script_run, hm, RunStats.exitCode] at he
              · rintro ⟨-, -, -, n, hn⟩
                exact absurd hn (by simp)
            · intro he
              exfalso
              simp [script_run, hm, RunStats.exitCode] at he
            · intro e he
              simp [script_run, hm, RunStats.exitCode] at he
              omega

/-- A world in which everything succeeds: readable credential, 201 creation
with a request id, and a first poll answering approved under the deadline. -/
def wApprove : World :=
  ⟨true, true, 0o600, true, "tok",
   NetResult.ok ⟨201, some [("request_id", JVal.jstr "req-1")]⟩,
   fun _ => NetResult.ok ⟨200, some [("status", JVal.jstr "approved")]⟩,
   fun _ => 0⟩

/-- Witness for C1 at a concrete input: a fully successful approved run exits
with status 0. -/
theorem C1_witness : script_run 1 Outer.normal wApprove = some 0 :=
  (C1_exit_status_policy 1 Outer.normal wApprove).1.mpr
    ⟨rfl, by decide, by decide, 1, by decide⟩

end Roamie
